import Mathlib

/-
Verification development for the resilient HTTP request layer of the
ScholarScope-MCP repository (src/api_requests.py and src/server.py).
The Python source is shallowly embedded: machine-level effects (the actual
network transport, wall-clock time, the random jitter draw) are supplied as
oracles, and everything the repository computes from them is translated into
executable Lean definitions.
-/

set_option maxRecDepth 10000

/-- PyObj models the Python objects that flow through the request layer:
the results of json.loads (with the JSON literal null mapped to the Python
value None, exactly as json.loads does), plain strings, and the None
sentinel returned for 404/204.  JSON numbers are modelled as integers;
float-valued JSON numbers are outside the modelled subset. -/
inductive PyObj where
  | none : PyObj
  | bool (b : Bool) : PyObj
  | int (n : Int) : PyObj
  | str (s : String) : PyObj
  | list (xs : List PyObj) : PyObj
  | dict (kvs : List (String × PyObj)) : PyObj

/-- Python identity test x is None, used by the source as `v is not None`
and `result is None` (written here without quotes: v is not None). -/
def PyObj.isNone : PyObj → Bool
  | PyObj.none => true
  | _ => false

/-- Python truthiness of the modelled objects, used for the expression
result.get with an or-default in the server handlers. -/
def pyTruthy : PyObj → Bool
  | PyObj.none => false
  | PyObj.bool b => b
  | PyObj.int n => n != 0
  | PyObj.str s => s ≠ ""
  | PyObj.list xs => !xs.isEmpty
  | PyObj.dict kvs => !kvs.isEmpty

/-- Python len() on the modelled objects: defined for strings, lists and
dicts, undefined (TypeError) otherwise. -/
def pyLen : PyObj → Option Nat
  | PyObj.str s => some s.length
  | PyObj.list xs => some xs.length
  | PyObj.dict kvs => some kvs.length
  | _ => Option.none

/-- Whitespace skipping for the JSON decoder, matching the whitespace set of
RFC 8259 that json.loads skips between tokens. -/
def skipWs (cs : List Char) : List Char :=
  cs.dropWhile (fun c => c = ' ' || c = '\n' || c = '\t' || c = '\r')

/-- Digits to a natural number, most significant first. -/
def digitsToNat (ds : List Char) : Nat :=
  ds.foldl (fun acc c => 10 * acc + (c.toNat - 48)) 0

/-- Parser mode for the single fuel-structural JSON parsing function:
a single value, the remaining elements of an array, or the remaining
members of an object. -/
inductive JMode where
  | val : JMode
  | elems (acc : List PyObj) : JMode
  | members (acc : List (String × PyObj)) : JMode

/-- Intermediate result of the JSON parsing function. -/
inductive JRes where
  | v (x : PyObj) : JRes
  | vs (xs : List PyObj) : JRes
  | kvs (l : List (String × PyObj)) : JRes

/-- Scan a JSON string body up to the closing quote; escape sequences are
outside the modelled subset, so a backslash makes the scan fail. -/
def jString (cs : List Char) : Option (String × List Char) :=
  let body := cs.takeWhile (fun c => c ≠ '"' && c ≠ '\\')
  match cs.drop body.length with
  | '"' :: rest => some (String.mk body, rest)
  | _ => Option.none

/-- Fuel-structural JSON parser for the subset of JSON produced by the
remote API that the claims exercise: null, booleans, integers, strings
without escapes, arrays and objects.  It models Python json.loads on that
subset; on everything else it fails, which the request layer treats as a
non-JSON body. -/
def jRun : Nat → JMode → List Char → Option (JRes × List Char)
  | 0, _, _ => Option.none
  | Nat.succ f, JMode.val, cs =>
    match skipWs cs with
    | 'n' :: 'u' :: 'l' :: 'l' :: rest => some (JRes.v PyObj.none, rest)
    | 't' :: 'r' :: 'u' :: 'e' :: rest => some (JRes.v (PyObj.bool true), rest)
    | 'f' :: 'a' :: 'l' :: 's' :: 'e' :: rest => some (JRes.v (PyObj.bool false), rest)
    | '"' :: rest =>
      match jString rest with
      | some (s, rest2) => some (JRes.v (PyObj.str s), rest2)
      | Option.none => Option.none
    | '[' :: rest =>
      (match skipWs rest with
       | ']' :: rest2 => some (JRes.v (PyObj.list []), rest2)
       | _ =>
         match jRun f (JMode.elems []) rest with
         | some (JRes.vs xs, rest2) => some (JRes.v (PyObj.list xs), rest2)
         | _ => Option.none)
    | '{' :: rest =>
      (match skipWs rest with
       | '}' :: rest2 => some (JRes.v (PyObj.dict []), rest2)
       | _ =>
         match jRun f (JMode.members []) rest with
         | some (JRes.kvs l, rest2) => some (JRes.v (PyObj.dict l), rest2)
         | _ => Option.none)
    | '-' :: rest =>
      let ds := rest.takeWhile Char.isDigit
      if ds.isEmpty then Option.none
      else some (JRes.v (PyObj.int (-(digitsToNat ds : Int))), rest.drop ds.length)
    | c :: rest =>
      if c.isDigit then
        let ds := (c :: rest).takeWhile Char.isDigit
        some (JRes.v (PyObj.int (digitsToNat ds : Int)), (c :: rest).drop ds.length)
      else Option.none
    | [] => Option.none
  | Nat.succ f, JMode.elems acc, cs =>
    match jRun f JMode.val cs with
    | some (JRes.v x, rest) =>
      (match skipWs rest with
       | ',' :: rest2 => jRun f (JMode.elems (acc ++ [x])) rest2
       | ']' :: rest2 => some (JRes.vs (acc ++ [x]), rest2)
       | _ => Option.none)
    | _ => Option.none
  | Nat.succ f, JMode.members acc, cs =>
    match skipWs cs with
    | '"' :: rest =>
      (match jString rest with
       | some (k, rest1) =>
         (match skipWs rest1 with
          | ':' :: rest2 =>
            (match jRun f JMode.val rest2 with
             | some (JRes.v x, rest3) =>
               (match skipWs rest3 with
                | ',' :: rest4 => jRun f (JMode.members (acc ++ [(k, x)])) rest4
                | '}' :: rest4 => some (JRes.kvs (acc ++ [(k, x)]), rest4)
                | _ => Option.none)
             | _ => Option.none)
          | _ => Option.none)
       | Option.none => Option.none)
    | _ => Option.none

/-- Model of Python json.loads on the subset described at jRun: the decoded
object when the whole body is valid JSON of the subset, none otherwise
(modelling the ValueError that resp.json raises). -/
def jsonDecode (s : String) : Option PyObj :=
  let cs := s.toList
  match jRun (2 * cs.length + 4) JMode.val cs with
  | some (JRes.v x, rest) => if (skipWs rest).isEmpty then some x else Option.none
  | _ => Option.none

/-- Strip leading and trailing whitespace from a character list, as the
Python builtin float() does to its argument. -/
def charStrip (cs : List Char) : List Char :=
  ((cs.dropWhile Char.isWhitespace).reverse.dropWhile Char.isWhitespace).reverse

/-- Split a character list on runs of spaces and tabs, dropping empty
pieces, as the Python str.split() with no argument does. -/
def splitWords (cs : List Char) : List (List Char) :=
  (cs.foldr
    (fun c (acc : List (List Char)) =>
      if c = ' ' || c = '\t' then [] :: acc
      else
        match acc with
        | [] => [[c]]
        | w :: rest => (c :: w) :: rest)
    []).filter (fun w => !w.isEmpty)

/-- Split a character list at every occurrence of the given separator,
keeping empty pieces, as the Python str.split(sep) does. -/
def splitOnChar (sep : Char) (cs : List Char) : List (List Char) :=
  cs.foldr
    (fun c (acc : List (List Char)) =>
      if c = sep then [] :: acc
      else
        match acc with
        | w :: rest => (c :: w) :: rest
        | [] => [[c]])
    [[]]

/-- Model of the Python builtin float() applied to a header string, with the
resulting value idealised as an exact rational.  The modelled grammar is
optional surrounding whitespace, an optional sign, digits with an optional
decimal point, and an optional exponent part; the special spellings inf and
nan and digit-group underscores are outside the subset. -/
def pyFloat (s : String) : Option Rat :=
  let cs := charStrip s.toList
  let signAndRest : Int × List Char :=
    match cs with
    | '+' :: r => (1, r)
    | '-' :: r => (-1, r)
    | _ => (1, cs)
  let sign := signAndRest.1
  let r0 := signAndRest.2
  let intDigits := r0.takeWhile Char.isDigit
  let r1 := r0.drop intDigits.length
  let fracAndRest : List Char × List Char :=
    match r1 with
    | '.' :: rr => (rr.takeWhile Char.isDigit, rr.drop (rr.takeWhile Char.isDigit).length)
    | _ => ([], r1)
  let fracDigits := fracAndRest.1
  let r2 := fracAndRest.2
  if intDigits.isEmpty && fracDigits.isEmpty then Option.none
  else
    let mantissa : Rat :=
      (sign * (digitsToNat (intDigits ++ fracDigits) : Int) : Int) /
        ((10 : Rat) ^ fracDigits.length)
    match r2 with
    | [] => some mantissa
    | 'e' :: rr => pyFloatExp mantissa rr
    | 'E' :: rr => pyFloatExp mantissa rr
    | _ => Option.none
where
  /-- Exponent part of the float grammar: optional sign then digits,
  consuming the whole remainder. -/
  pyFloatExp (mantissa : Rat) (rr : List Char) : Option Rat :=
    let expSignAndRest : Bool × List Char :=
      match rr with
      | '+' :: r => (false, r)
      | '-' :: r => (true, r)
      | _ => (false, rr)
    let eds := expSignAndRest.2.takeWhile Char.isDigit
    if eds.isEmpty || !(expSignAndRest.2.drop eds.length).isEmpty then Option.none
    else
      let e := digitsToNat eds
      some (if expSignAndRest.1 then mantissa / (10 : Rat) ^ e else mantissa * (10 : Rat) ^ e)

/-- Result of email.utils.parsedate_to_datetime: a wall-clock date and time
plus an optional timezone offset in seconds; a missing offset models a naive
datetime (the header carried no usable zone, or the zone was the RFC 2822
spelling -0000). -/
structure PyDateTime where
  year : Nat
  month : Nat
  day : Nat
  hour : Nat
  minute : Nat
  second : Nat
  tzOffset : Option Int

/-- Month names recognised by the RFC 2822 date parser, lowercased. -/
def monthIndex (w : List Char) : Option Nat :=
  let names : List (List Char) :=
    ["jan".toList, "feb".toList, "mar".toList, "apr".toList, "may".toList, "jun".toList,
     "jul".toList, "aug".toList, "sep".toList, "oct".toList, "nov".toList, "dec".toList]
  match names.findIdx? (fun n => n = w) with
  | some i => some (i + 1)
  | Option.none => Option.none

/-- Day-of-week names recognised (and skipped) by the RFC 2822 date
parser, lowercased. -/
def dayNames : List (List Char) :=
  ["mon".toList, "tue".toList, "wed".toList, "thu".toList, "fri".toList, "sat".toList,
   "sun".toList]

/-- Named timezone table of the email date parser, with offsets already in
seconds east of UTC. -/
def namedTz (w : List Char) : Option Int :=
  let table : List (List Char × Int) :=
    [("GMT".toList, 0), ("UT".toList, 0), ("UTC".toList, 0),
     ("EST".toList, -18000), ("EDT".toList, -14400),
     ("CST".toList, -21600), ("CDT".toList, -18000),
     ("MST".toList, -25200), ("MDT".toList, -21600),
     ("PST".toList, -28800), ("PDT".toList, -25200)]
  match table.find? (fun p => p.1 = w) with
  | some p => some p.2
  | Option.none => Option.none

/-- Timezone token of an RFC 2822 date: a known name, or a signed four-digit
offset in hours and minutes; an unknown name, or the spelling -0000, yields
a naive datetime, exactly as email.utils.parsedate_tz behaves. -/
def parseTzToken (w : List Char) : Option Int :=
  match namedTz (w.map Char.toUpper) with
  | some off => some off
  | Option.none =>
    match w with
    | '+' :: ds =>
      if !ds.isEmpty && ds.all Char.isDigit then
        some (((digitsToNat ds / 100) * 3600 + (digitsToNat ds % 100) * 60 : Nat) : Int)
      else Option.none
    | '-' :: ds =>
      if !ds.isEmpty && ds.all Char.isDigit && digitsToNat ds ≠ 0 then
        some (-(((digitsToNat ds / 100) * 3600 + (digitsToNat ds % 100) * 60 : Nat) : Int))
      else Option.none
    | _ => Option.none

/-- Leap-year test of the proleptic Gregorian calendar. -/
def leapYear (y : Nat) : Bool :=
  y % 4 = 0 && (y % 100 ≠ 0 || y % 400 = 0)

/-- Number of days in a month of the given year. -/
def daysInMonth (y m : Nat) : Nat :=
  if m = 2 then (if leapYear y then 29 else 28)
  else if m = 4 || m = 6 || m = 9 || m = 11 then 30
  else 31

/-- Number of days in the months of the given year that precede month m. -/
def daysBeforeMonth (y m : Nat) : Nat :=
  (List.range (m - 1)).foldl (fun acc i => acc + daysInMonth y (i + 1)) 0

/-- Number of days from 0001-01-01 to the first day of the given year, in
the proleptic Gregorian calendar. -/
def daysBeforeYear (y : Nat) : Nat :=
  365 * (y - 1) + (y - 1) / 4 - (y - 1) / 100 + (y - 1) / 400

/-- Seconds since the Unix epoch of the wall-clock fields of a datetime,
ignoring its timezone offset (the naive reading of the fields). -/
def naiveEpochSeconds (dt : PyDateTime) : Int :=
  86400 * ((daysBeforeYear dt.year + daysBeforeMonth dt.year dt.month + (dt.day - 1) : Int)
    - 719162) + 3600 * (dt.hour : Int) + 60 * (dt.minute : Int) + (dt.second : Int)

/-- Seconds since the Unix epoch of the instant a datetime denotes, after
the source's UTC normalisation: a naive datetime has its fields read as UTC
(tzinfo replaced by timezone.utc), an aware one subtracts its offset. -/
def utcEpochSeconds (dt : PyDateTime) : Int :=
  naiveEpochSeconds dt - dt.tzOffset.getD 0

/-- Range checks of the datetime constructor; a failure raises ValueError in
Python, which the source's except clause turns into no wait hint. -/
def datetimeFieldsValid (y m d hh mi ss : Nat) : Bool :=
  1 ≤ y && y ≤ 9999 && 1 ≤ m && m ≤ 12 && 1 ≤ d && d ≤ daysInMonth y m &&
    hh ≤ 23 && mi ≤ 59 && ss ≤ 59

/-- Hour, minute and second fields of the time token, split on colons; the
seconds field is optional. -/
def parseTimeToken (w : List Char) : Option (Nat × Nat × Nat) :=
  let parts := splitOnChar ':' w
  let num := fun (p : List Char) => if !p.isEmpty && p.all Char.isDigit then some (digitsToNat p) else Option.none
  match parts with
  | [h, m] =>
    (match num h, num m with
     | some hh, some mi => some (hh, mi, 0)
     | _, _ => Option.none)
  | [h, m, s] =>
    (match num h, num m, num s with
     | some hh, some mi, some ss => some (hh, mi, ss)
     | _, _, _ => Option.none)
  | _ => Option.none

/-- Model of email.utils.parsedate_to_datetime on the RFC 1123 / RFC 2822
shapes that appear in Retry-After headers: an optional day-of-week token
(flagged by a trailing comma or a known day name), then day, month name,
year (two-digit years adjusted as the email parser does), a time of day,
and an optional timezone token.  Parse failures and field values the
datetime constructor would reject both yield no result, which models the
ValueError path of the source.  The more exotic var-shape forms accepted by
the email parser are outside the modelled subset. -/
def parsedate_to_datetime (s : String) : Option PyDateTime :=
  let toks := splitWords s.toList
  let toks :=
    match toks with
    | t :: rest =>
      if t.getLast? = some ',' || dayNames.contains (t.map Char.toLower) then rest
      else t :: rest
    | [] => []
  let core : Option (List Char × List Char × List Char × List Char × Option (List Char)) :=
    match toks with
    | [dd, mon, yy, tm] => some (dd, mon, yy, tm, Option.none)
    | [dd, mon, yy, tm, tz] => some (dd, mon, yy, tm, some tz)
    | _ => Option.none
  match core with
  | Option.none => Option.none
  | some (dd, mon, yy, tm, tz) =>
    match monthIndex (mon.map Char.toLower) with
    | Option.none => Option.none
    | some m =>
      if !dd.isEmpty && dd.all Char.isDigit && !yy.isEmpty && yy.all Char.isDigit then
        let d := digitsToNat dd
        let yRaw := digitsToNat yy
        let y := if yRaw < 100 then (if yRaw > 68 then yRaw + 1900 else yRaw + 2000) else yRaw
        match parseTimeToken tm with
        | Option.none => Option.none
        | some (hh, mi, ss) =>
          if datetimeFieldsValid y m d hh mi ss then
            some { year := y, month := m, day := d, hour := hh, minute := mi, second := ss,
                   tzOffset := match tz with | Option.none => Option.none | some w => parseTzToken w }
          else Option.none
      else Option.none

/-- Model of RequestAPI._parse_retry_after (src/api_requests.py lines
161-181): a missing or empty header gives no hint; a value the float
builtin accepts is returned directly; otherwise HTTP-date parsing is
attempted and, normalised to UTC, clamped below by zero against the current
time; any parse failure gives no hint.  The current UTC time
datetime.now(timezone.utc) is supplied as an oracle in epoch seconds. -/
def _parse_retry_after (ra : Option String) (now : Rat) : Option Rat :=
  match ra with
  | Option.none => Option.none
  | some s =>
    if s = "" then Option.none
    else
      match pyFloat s with
      | some v => some v
      | Option.none =>
        match parsedate_to_datetime s with
        | Option.none => Option.none
        | some dt => some (max 0 ((utcEpochSeconds dt : Rat) - now))

/-- Dict models a Python dict with string keys: an insertion-ordered list of
key/value pairs (a dict built by Python code never holds a duplicate key;
the lemmas that need that fact take it as a hypothesis). -/
def Dict : Type := List (String × PyObj)

/-- Lookup of a key, returning the value at its first occurrence, as a
Python dict subscript does. -/
def dictLookup : List (String × PyObj) → String → Option PyObj
  | [], _ => Option.none
  | p :: rest, k => if p.1 = k then some p.2 else dictLookup rest k

/-- Store a value under a key: replace in place if the key is present,
append otherwise — the update order of a Python dict. -/
def dictSet : List (String × PyObj) → String → PyObj → List (String × PyObj)
  | [], k, v => [(k, v)]
  | p :: rest, k, v => if p.1 = k then (k, v) :: rest else p :: dictSet rest k v

/-- Model of the Python double-star merge of two dicts: start from the
first and store every entry of the second in order, so the second dict wins
on key conflicts. -/
def dictUnion (a b : List (String × PyObj)) : List (String × PyObj) :=
  b.foldl (fun acc kv => dictSet acc kv.1 kv.2) a

/-- Model of the dict comprehension keeping entries whose value is not
None. -/
def dictDropNone (d : List (String × PyObj)) : List (String × PyObj) :=
  d.filter (fun kv => !kv.2.isNone)

/-- Shapes a caller can pass for params, following the source's runtime
dispatch: a mapping, a sequence of key/value pairs, or any other shape
(which the source forwards uninterpreted to the transport). -/
inductive Params where
  | mapping (d : List (String × PyObj)) : Params
  | pairs (l : List (String × PyObj)) : Params
  | other : Params

/-- Configuration of a RequestAPI instance (src/api_requests.py lines
22-41), restricted to the fields the modelled behavior reads.  The base
URL, default headers, timeout and connection handles act only at the
transport layer, which is an oracle here. -/
structure Cfg where
  default_params : List (String × PyObj)
  return_none_on_404 : Bool
  max_retries : Nat
  jitter_max_seconds : Rat

/-- Model of RequestAPI._merge_params (src/api_requests.py lines 138-154):
absent params give the defaults with None values dropped; a mapping is
overlaid on the defaults (caller wins) and None values are then dropped; a
sequence of pairs, and any other shape, pass through unmodified. -/
def _merge_params (cfg : Cfg) (params : Option Params) : Params :=
  match params with
  | Option.none => Params.mapping (dictDropNone cfg.default_params)
  | some (Params.mapping m) => Params.mapping (dictDropNone (dictUnion cfg.default_params m))
  | some (Params.pairs l) => Params.pairs l
  | some Params.other => Params.other

/-- Retryable status set of the source (src/api_requests.py line 12). -/
def RETRYABLE_STATUSES : List Nat := [408, 425, 429, 500, 502, 503, 504]

/-- Success test of httpx.Response.raise_for_status: 2xx statuses succeed,
every other status raises HTTPStatusError. -/
def isSuccessStatus (s : Nat) : Prop := 200 ≤ s ∧ s < 300

instance (s : Nat) : Decidable (isSuccessStatus s) := by
  unfold isSuccessStatus; infer_instance

/-- One HTTP response as seen by a single attempt: its status code, the
value of its Retry-After header if present, and its body text. -/
structure Response where
  status : Nat
  retryAfterHeader : Option String
  body : String

/-- Outcome of issuing one attempt on the transport: a response, or a
network-level failure (httpx.RequestError) carrying its message. -/
inductive AttemptOutcome where
  | resp (r : Response) : AttemptOutcome
  | netErr (msg : String) : AttemptOutcome

/-- Exceptions that can escape one attempt of _get_once: the internal
retryable-status signal (RequestAPI._RetryableStatus, carrying the status
and any parsed Retry-After hint), the fatal httpx.HTTPStatusError carrying
the status, or a network-level httpx.RequestError with its message. -/
inductive GetError where
  | retryableStatus (status : Nat) (retry_after : Option Rat) : GetError
  | httpStatusError (status : Nat) : GetError
  | networkError (msg : String) : GetError

/-- Result of one attempt, or of a whole get call: a returned Python value
or a raised exception. -/
inductive GetResult where
  | ok (v : PyObj) : GetResult
  | exn (e : GetError) : GetResult

/-- Message attached to the internal retryable-status exception
(src/api_requests.py line 20). -/
def retryableStatusMessage (status : Nat) : String :=
  "Retryable HTTP status: " ++ toString status

/-- Model of RequestAPI._parse (src/api_requests.py lines 183-190): a 204
response yields None regardless of body, otherwise the JSON decoding of the
body when it succeeds and the raw body text when it does not. -/
def _parse (r : Response) : PyObj :=
  if r.status = 204 then PyObj.none
  else
    match jsonDecode r.body with
    | some v => v
    | Option.none => PyObj.str r.body

/-- Model of one attempt, RequestAPI._get_once and _aget_once together with
_maybe_raise_for_retry (src/api_requests.py lines 63-74, 81-92, 156-159):
a network failure raises RequestError; a retryable status raises the
internal signal with the parsed Retry-After hint; a 404 under the
return-none-on-404 policy returns None; any other non-2xx status raises
HTTPStatusError; a success returns the parsed body. -/
def _get_once (cfg : Cfg) (a : AttemptOutcome) (now : Rat) : GetResult :=
  match a with
  | AttemptOutcome.netErr m => GetResult.exn (GetError.networkError m)
  | AttemptOutcome.resp r =>
    if r.status ∈ RETRYABLE_STATUSES then
      GetResult.exn (GetError.retryableStatus r.status (_parse_retry_after r.retryAfterHeader now))
    else if r.status = 404 ∧ cfg.return_none_on_404 = true then
      GetResult.ok PyObj.none
    else if ¬ isSuccessStatus r.status then
      GetResult.exn (GetError.httpStatusError r.status)
    else
      GetResult.ok (_parse r)

/-- Retry predicate of the source's tenacity configuration,
retry_if_exception_type((self._RetryableStatus, httpx.RequestError)):
the internal signal and network errors are retried, HTTPStatusError is
not. -/
def isRetryableExc : GetError → Bool
  | GetError.retryableStatus _ _ => true
  | GetError.networkError _ => true
  | GetError.httpStatusError _ => false

/-- Wait of tenacity's wait_exponential(multiplier=0.5, max=8) after the
failed attempt with the given 1-based number: the clamp of
0.5 * 2 ^ (attempt - 1) between the default minimum 0 and the maximum 8. -/
def waitExponential (attempt : Nat) : Rat :=
  max 0 (min ((1 / 2 : Rat) * 2 ^ (attempt - 1)) 8)

/-- Effect of the source's before_sleep hook
RequestAPI._maybe_sleep_until_retry_after (src/api_requests.py lines
113-117) on the field retry_state.next_action.sleep: when the failure is
the internal retryable-status signal carrying a hint, the field is set to
the hint floored at zero; otherwise the field keeps the computed wait. -/
def hookNextAction (e : GetError) (computed : Rat) : Rat :=
  match e with
  | GetError.retryableStatus _ (some ra) => max 0 ra
  | _ => computed

/-- Record of one retry pause: slept is the duration tenacity actually
sleeps (the DoSleep value, captured from the wait strategy before the
before_sleep hook runs), nextActionSleep is the value of
retry_state.next_action.sleep after the hook ran.  Tenacity's loop sleeps
the former and never reads the latter again (the RetryAction is replaced by
prepare_for_next_attempt), which is what makes the hook's write dead. -/
structure SleepRec where
  slept : Rat
  nextActionSleep : Rat

/-- Model of the loop of tenacity's Retrying and AsyncRetrying under the
source's configuration (src/api_requests.py lines 95-111): attempts are
numbered from 1; a non-retryable exception or a success ends the call at
once; a retryable exception ends it (re-raising that same exception, per
reraise=True) when no fuel remains — fuel counts the retries
stop_after_attempt(max_retries) still allows — and otherwise sleeps
wait_exponential(multiplier=0.5, max=8) plus wait_random(0, jitter) of the
attempt number and tries again.  The attempt outcomes, the current time of
each attempt and the jitter drawn for each attempt are oracles indexed by
attempt number. -/
def retryLoop (cfg : Cfg) (env : Nat → AttemptOutcome) (nowAt : Nat → Rat)
    (jitter : Nat → Rat) : Nat → Nat → List SleepRec × GetResult
  | n, fuel =>
    match _get_once cfg (env n) (nowAt n) with
    | GetResult.ok v => ([], GetResult.ok v)
    | GetResult.exn e =>
      if isRetryableExc e then
        match fuel with
        | 0 => ([], GetResult.exn e)
        | Nat.succ f =>
          let computed := waitExponential n + jitter n
          let rest := retryLoop cfg env nowAt jitter (n + 1) f
          ({ slept := computed, nextActionSleep := hookNextAction e computed } :: rest.1,
           rest.2)
      else ([], GetResult.exn e)

/-- Model of RequestAPI.get and aget (src/api_requests.py lines 59-61 and
77-79): run the retrying loop from attempt 1, with
stop_after_attempt(max_retries) leaving max_retries - 1 possible retries
after the first attempt.  The first component traces the pauses between
attempts, the second is the call's result. -/
def runGet (cfg : Cfg) (env : Nat → AttemptOutcome) (nowAt : Nat → Rat)
    (jitter : Nat → Rat) : List SleepRec × GetResult :=
  retryLoop cfg env nowAt jitter 1 (cfg.max_retries - 1)

/-- Base backoff schedule the specification describes: 0.5 time-units
doubling per attempt and capped at 8.  The claims compare this spec-side
description with the embedded wait strategy. -/
def baseBackoff (attempt : Nat) : Rat :=
  min ((1 / 2 : Rat) * 2 ^ (attempt - 1)) 8

/-- Split an absolute URL at its first scheme separator: the characters
before the first colon (the scheme) and the characters after the ://.  A
missing or malformed separator means the string is not an absolute URL. -/
def splitSchemeRest : List Char → Option (List Char × List Char)
  | [] => Option.none
  | ':' :: '/' :: '/' :: r => some ([], r)
  | ':' :: _ => Option.none
  | c :: rest =>
    match splitSchemeRest rest with
    | some (sc, r) => some (c :: sc, r)
    | Option.none => Option.none

/-- Host portion of the part after the scheme separator: the authority up
to the first path, query or fragment delimiter, with any port stripped.
Bracketed IPv6 literals are outside the modelled subset. -/
def hostOf (afterScheme : List Char) : List Char :=
  let auth := afterScheme.takeWhile (fun c => c ≠ '/' && c ≠ '?' && c ≠ '#')
  auth.takeWhile (fun c => c ≠ ':')

/-- Dotted-quad test: four dot-separated labels of digits, each at most
255. -/
def isIPv4 (labels : List (List Char)) : Bool :=
  labels.length = 4 &&
    labels.all (fun l => !l.isEmpty && l.all Char.isDigit && digitsToNat l ≤ 255)

/-- Modelled from the spec: the private-or-local address rejection of the
validators library (validators.url with private=False), whose source is not
part of this repository.  Following section 4.1, loopback, RFC 1918
private, link-local and unspecified IPv4 ranges and the localhost name are
non-public. -/
def isPrivateHost (labels : List (List Char)) : Bool :=
  if isIPv4 labels then
    match labels.map digitsToNat with
    | [a, b, _, _] =>
      a = 127 || a = 10 || a = 0 || (a = 192 && b = 168) || (a = 169 && b = 254) ||
        (a = 172 && 16 ≤ b && b ≤ 31)
    | _ => false
  else labels = ["localhost".toList]

/-- Modelled from the spec: the hostname-syntax and top-level-domain checks
of the validators library (validators.url with consider_tld=True), whose
source is not part of this repository.  Following section 4.1, a host is a
dotted sequence of nonempty labels of letters, digits and hyphens, and a
non-IP host needs at least two labels, the last alphabetic of length at
least two. -/
def hostSyntaxOk (labels : List (List Char)) : Bool :=
  !labels.isEmpty &&
    labels.all (fun l => !l.isEmpty && l.all (fun c => c.isAlpha || c.isDigit || c = '-')) &&
    (isIPv4 labels ||
      (2 ≤ labels.length &&
        (match labels.getLast? with
         | some tld => 2 ≤ tld.length && tld.all Char.isAlpha
         | Option.none => false)))

/-- Modelled from the spec: the overall accept test of validators.url under
the flags the source passes (scheme restricted to http and https by the
source's validate_scheme lambda, ports allowed, private addresses and
invalid top-level domains rejected).  The library's own source is not part
of this repository; this follows the contract in section 4.1. -/
def urlCheckPasses (url : String) : Bool :=
  match splitSchemeRest url.toList with
  | Option.none => false
  | some (sc, rest) =>
    let host := hostOf rest
    let labels := splitOnChar '.' host
    (sc = "http".toList || sc = "https".toList) && !host.isEmpty &&
      hostSyntaxOk labels && !isPrivateHost labels

/-- Ways a call of validators.url can come back to the caller: the value
True, a falsy ValidationError object (the library's default way of
reporting failure), or a raised ValidationError (the library's raising
mode).  The raising mode is kept abstract as a flag so that the wrapper's
except clause is exercised. -/
inductive VResult where
  | returnsTrue : VResult
  | returnsValidationError : VResult
  | raisesValidationError : VResult
  deriving DecidableEq

/-- Modelled from the spec: the outcome of the validators.url call made by
the source, with raiseMode selecting whether the library reports failure by
returning a falsy ValidationError or by raising it. -/
def validators_url (raiseMode : Bool) (url : String) : VResult :=
  if urlCheckPasses url then VResult.returnsTrue
  else if raiseMode then VResult.raisesValidationError
  else VResult.returnsValidationError

/-- Model of validate_url_with_ssrf_guard (src/api_requests.py lines
193-216) as the truth value it yields to callers: a raised ValidationError
is caught and becomes False, a returned ValidationError object is falsy,
and True passes through. -/
def validate_url_with_ssrf_guard (raiseMode : Bool) (url : String) : Bool :=
  match validators_url raiseMode url with
  | VResult.returnsTrue => true
  | VResult.returnsValidationError => false
  | VResult.raisesValidationError => false

/-- Outcome of one server tool handler as the agent host sees it: a normal
return, a ToolError with its descriptive message, or an exception the
handler did not catch (the internal retryable-status signal, or the
attribute and type errors a non-dict result would cause). -/
inductive HandlerResult where
  | success : HandlerResult
  | toolErr (msg : String) : HandlerResult
  | uncaughtRetryable (status : Nat) : HandlerResult
  | uncaughtAttrError : HandlerResult
  | uncaughtTypeError : HandlerResult

/-- Truth test used to state that a handler outcome is a ToolError. -/
def isToolErr : HandlerResult → Bool
  | HandlerResult.toolErr _ => true
  | _ => false

/-- Model of the result dispatch of the search_papers tool handler
(src/server.py lines 76-109): a None result or an empty results list raises
ToolError with the no-works message; an httpx.HTTPStatusError is reported
as a ToolError naming the status; an httpx.RequestError is reported as a
ToolError naming the network error; any other escaping exception — in
particular the internal RequestAPI._RetryableStatus that tenacity re-raises
after exhausting attempts — matches no except clause and propagates out of
the handler.  The other six handlers share this shape with their own
messages. -/
def search_papers_handle (r : GetResult) : HandlerResult :=
  match r with
  | GetResult.exn (GetError.httpStatusError s) =>
    HandlerResult.toolErr ("Request failed with status: " ++ toString s)
  | GetResult.exn (GetError.networkError m) =>
    HandlerResult.toolErr ("Network error: " ++ m)
  | GetResult.exn (GetError.retryableStatus s _) => HandlerResult.uncaughtRetryable s
  | GetResult.ok v =>
    if v.isNone then HandlerResult.toolErr "No works found with the query."
    else
      match v with
      | PyObj.dict kvs =>
        let got := (dictLookup kvs "results").getD (PyObj.list [])
        let results := if pyTruthy got then got else PyObj.list []
        (match pyLen results with
         | some n =>
           if n = 0 then HandlerResult.toolErr "No works found with the query."
           else HandlerResult.success
         | Option.none => HandlerResult.uncaughtTypeError)
      | _ => HandlerResult.uncaughtAttrError

/-- Configuration used by the concrete retry scenarios: two total attempts
and a jitter ceiling of a quarter time-unit. -/
def cfgA : Cfg :=
  { default_params := [], return_none_on_404 := false, max_retries := 2,
    jitter_max_seconds := 1 / 4 }

/-- Attempt oracle of the Retry-After scenario: the first attempt gets a 429
response carrying Retry-After 2, every later attempt succeeds with body
3. -/
def envA : Nat → AttemptOutcome := fun n =>
  if n = 1 then AttemptOutcome.resp { status := 429, retryAfterHeader := some "2", body := "" }
  else AttemptOutcome.resp { status := 200, retryAfterHeader := Option.none, body := "3" }

/-- Clock oracle pinned at epoch zero. -/
def nowZero : Nat → Rat := fun _ => 0

/-- Jitter oracle drawing one eighth on every attempt, inside the [0, 1/4)
range of wait_random. -/
def jitterEighth : Nat → Rat := fun _ => 1 / 8

/-- Configuration used by the exhaustion scenario: three total attempts. -/
def cfgB : Cfg :=
  { default_params := [], return_none_on_404 := false, max_retries := 3,
    jitter_max_seconds := 1 / 4 }

/-- Attempt oracle of the exhaustion scenario: every attempt gets a plain
500 response. -/
def envB : Nat → AttemptOutcome := fun _ =>
  AttemptOutcome.resp { status := 500, retryAfterHeader := Option.none, body := "" }

/-- Jitter oracle drawing zero on every attempt. -/
def jitterZero : Nat → Rat := fun _ => 0

/-- Attempt oracle of the no-hint backoff scenario: every attempt gets a
plain 429 response with no Retry-After header. -/
def envC : Nat → AttemptOutcome := fun _ =>
  AttemptOutcome.resp { status := 429, retryAfterHeader := Option.none, body := "" }

/-- Response used by the classification witnesses: a 429 carrying
Retry-After 2. -/
def resp429 : Response := { status := 429, retryAfterHeader := some "2", body := "" }

/-- Response used by the parse witnesses: a success whose body is a JSON
array. -/
def respArray : Response := { status := 200, retryAfterHeader := Option.none, body := "[1, 2]" }

/-- Response used by the parse witnesses: a 204 whose body would decode as
JSON if it were read. -/
def resp204 : Response := { status := 204, retryAfterHeader := Option.none, body := "[1, 2]" }

/-- Response used by the sentinel witnesses: a 404 with an irrelevant
body. -/
def resp404 : Response := { status := 404, retryAfterHeader := Option.none, body := "gone" }

/-- Response used by the sentinel witnesses: a success whose body is the
JSON literal null. -/
def respNull : Response := { status := 200, retryAfterHeader := Option.none, body := "null" }

/-- Configuration with the 404-to-None policy enabled. -/
def cfgD : Cfg :=
  { default_params := [], return_none_on_404 := true, max_retries := 3,
    jitter_max_seconds := 1 / 4 }

/-- Default params of the parameter-merge witness, with a None-valued
default that merging must drop. -/
def defaultsW : List (String × PyObj) :=
  [("mailto", PyObj.str "x@y.com"), ("page", PyObj.int 1), ("extra", PyObj.none)]

/-- Configuration of the parameter-merge witness. -/
def cfgE : Cfg :=
  { default_params := defaultsW, return_none_on_404 := false, max_retries := 3,
    jitter_max_seconds := 1 / 4 }

/-- Caller params of the parameter-merge witness. -/
def callerW : List (String × PyObj) := [("page", PyObj.int 2)]

/-- Datetime denoted by the date string of the Retry-After date witness. -/
def dtW : PyDateTime :=
  { year := 2015, month := 10, day := 21, hour := 7, minute := 28, second := 0,
    tzOffset := some 0 }

/-- Keys of a dict in insertion order. -/
def dictKeys (d : List (String × PyObj)) : List String :=
  d.map Prod.fst

/-- Looking a key up after a store finds the stored value, and other keys
are unaffected. -/
theorem dictLookup_dictSet (d : List (String × PyObj)) (k : String) (v : PyObj) (k' : String) :
    dictLookup (dictSet d k v) k' = if k' = k then some v else dictLookup d k' := by
  induction d with
  | nil =>
    by_cases h : k' = k
    · subst h; simp [dictSet, dictLookup]
    · rw [if_neg h]
      simp only [dictSet, dictLookup]
      rw [if_neg (fun hh => h hh.symm)]
  | cons p rest ih =>
    obtain ⟨k0, v0⟩ := p
    by_cases hp : k0 = k
    · subst hp
      by_cases h : k' = k0
      · subst h; simp [dictSet, dictLookup]
      · rw [if_neg h]
        simp only [dictSet, dictLookup, if_pos rfl]
        rw [if_neg (fun hh => h hh.symm), if_neg (fun hh => h hh.symm)]
    · by_cases h : k' = k
      · subst h
        simp only [dictSet, dictLookup, if_neg hp]
        simp [ih]
      · rw [if_neg h]
        simp only [dictSet, dictLookup, if_neg hp]
        by_cases hk : k0 = k'
        · rw [if_pos hk, if_pos hk]
        · rw [if_neg hk, if_neg hk, ih, if_neg h]

/-- A key is absent from a dict exactly when its lookup fails. -/
theorem dictLookup_eq_none_iff (d : List (String × PyObj)) (k : String) :
    dictLookup d k = Option.none ↔ k ∉ dictKeys d := by
  induction d with
  | nil => simp [dictLookup, dictKeys]
  | cons p rest ih =>
    obtain ⟨k0, v0⟩ := p
    have hkeys : dictKeys ((k0, v0) :: rest) = k0 :: dictKeys rest := rfl
    rw [hkeys]
    by_cases hp : k0 = k
    · subst hp
      simp [dictLookup]
    · simp only [dictLookup, if_neg hp, List.mem_cons, ih]
      constructor
      · intro hnot hmem
        rcases hmem with h1 | h1
        · exact hp h1.symm
        · exact hnot h1
      · intro hnot h1
        exact hnot (Or.inr h1)

/-- Keys of a store when the key was already present. -/
theorem dictKeys_dictSet_mem (d : List (String × PyObj)) (k : String) (v : PyObj)
    (h : k ∈ dictKeys d) : dictKeys (dictSet d k v) = dictKeys d := by
  induction d with
  | nil => simp [dictKeys] at h
  | cons p rest ih =>
    obtain ⟨k0, v0⟩ := p
    by_cases hp : k0 = k
    · subst hp
      simp [dictSet, dictKeys]
    · have hmem : k ∈ dictKeys rest := by
        rcases (by simpa [dictKeys] using h) with h1 | h1
        · exact absurd h1.symm hp
        · simpa [dictKeys] using h1
      have : dictSet ((k0, v0) :: rest) k v = (k0, v0) :: dictSet rest k v := by
        simp [dictSet, hp]
      rw [this]
      have hk : dictKeys ((k0, v0) :: dictSet rest k v) = k0 :: dictKeys (dictSet rest k v) := rfl
      have hk2 : dictKeys ((k0, v0) :: rest) = k0 :: dictKeys rest := rfl
      rw [hk, hk2, ih hmem]

/-- Keys of a store when the key was absent: it is appended. -/
theorem dictKeys_dictSet_not_mem (d : List (String × PyObj)) (k : String) (v : PyObj)
    (h : k ∉ dictKeys d) : dictKeys (dictSet d k v) = dictKeys d ++ [k] := by
  induction d with
  | nil => simp [dictSet, dictKeys]
  | cons p rest ih =>
    obtain ⟨k0, v0⟩ := p
    have hp : k0 ≠ k := by
      intro hh; exact h (by simp [dictKeys, hh])
    have hrest : k ∉ dictKeys rest := by
      intro hh; exact h (by simp [dictKeys]; exact Or.inr (by simpa [dictKeys] using hh))
    have hstep : dictSet ((k0, v0) :: rest) k v = (k0, v0) :: dictSet rest k v := by
      simp [dictSet, hp]
    rw [hstep]
    have hk : dictKeys ((k0, v0) :: dictSet rest k v) = k0 :: dictKeys (dictSet rest k v) := rfl
    have hk2 : dictKeys ((k0, v0) :: rest) = k0 :: dictKeys rest := rfl
    rw [hk, hk2, ih hrest]
    rfl

/-- A store preserves key distinctness. -/
theorem nodup_dictKeys_dictSet (d : List (String × PyObj)) (k : String) (v : PyObj)
    (h : (dictKeys d).Nodup) : (dictKeys (dictSet d k v)).Nodup := by
  by_cases hm : k ∈ dictKeys d
  · rw [dictKeys_dictSet_mem d k v hm]; exact h
  · rw [dictKeys_dictSet_not_mem d k v hm]
    simp [List.nodup_append, h, hm]

/-- The double-star merge preserves key distinctness of its first
argument. -/
theorem nodup_dictKeys_dictUnion (a b : List (String × PyObj))
    (h : (dictKeys a).Nodup) : (dictKeys (dictUnion a b)).Nodup := by
  induction b generalizing a with
  | nil => exact h
  | cons p rest ih => exact ih (dictSet a p.1 p.2) (nodup_dictKeys_dictSet a p.1 p.2 h)

/-- Lookup through the double-star merge: the second dict wins when it has
the key, otherwise the first answers.  The second dict is assumed to have
distinct keys, as every dict built by the Python source does. -/
theorem dictLookup_dictUnion (a b : List (String × PyObj)) (k : String)
    (hb : (dictKeys b).Nodup) :
    dictLookup (dictUnion a b) k = (dictLookup b k).or (dictLookup a k) := by
  induction b generalizing a with
  | nil => simp [dictUnion, dictLookup]
  | cons p rest ih =>
    obtain ⟨k0, v0⟩ := p
    have hkeys : dictKeys ((k0, v0) :: rest) = k0 :: dictKeys rest := rfl
    rw [hkeys] at hb
    have hnot : k0 ∉ dictKeys rest := (List.nodup_cons.mp hb).1
    have hrest : (dictKeys rest).Nodup := (List.nodup_cons.mp hb).2
    have hstep : dictUnion a ((k0, v0) :: rest) = dictUnion (dictSet a k0 v0) rest := rfl
    rw [hstep, ih (dictSet a k0 v0) hrest, dictLookup_dictSet]
    by_cases hp : k0 = k
    · subst hp
      have hnone : dictLookup rest k0 = Option.none :=
        (dictLookup_eq_none_iff rest k0).mpr hnot
      simp [dictLookup, hnone]
    · simp only [dictLookup, if_neg hp]
      rw [if_neg (fun hh => hp hh.symm)]

/-- Lookup through the None-dropping comprehension, for a dict with
distinct keys: a present None value disappears, anything else
survives. -/
theorem dictLookup_dictDropNone (d : List (String × PyObj)) (k : String)
    (hd : (dictKeys d).Nodup) :
    dictLookup (dictDropNone d) k =
      (dictLookup d k).bind (fun v => if v.isNone then Option.none else some v) := by
  induction d with
  | nil => simp [dictDropNone, dictLookup]
  | cons p rest ih =>
    obtain ⟨k0, v0⟩ := p
    have hkeys : dictKeys ((k0, v0) :: rest) = k0 :: dictKeys rest := rfl
    rw [hkeys] at hd
    have hnot : k0 ∉ dictKeys rest := (List.nodup_cons.mp hd).1
    have hrest : (dictKeys rest).Nodup := (List.nodup_cons.mp hd).2
    by_cases hv : v0.isNone = true
    · have hdrop : dictDropNone ((k0, v0) :: rest) = dictDropNone rest := by
        simp [dictDropNone, hv]
      rw [hdrop, ih hrest]
      by_cases hp : k0 = k
      · subst hp
        have hnone : dictLookup rest k0 = Option.none :=
          (dictLookup_eq_none_iff rest k0).mpr hnot
        simp [dictLookup, hnone, hv]
      · simp [dictLookup, hp]
    · have hkeep : dictDropNone ((k0, v0) :: rest) = (k0, v0) :: dictDropNone rest := by
        simp [dictDropNone, hv]
      rw [hkeep]
      by_cases hp : k0 = k
      · simp [dictLookup, hp, hv]
      · simp [dictLookup, hp, ih hrest]

/-- The embedded tenacity wait strategy equals the spec's base schedule: the
lower clamp at zero never acts because the exponential term is positive. -/
theorem waitExponential_eq_baseBackoff (k : Nat) : waitExponential k = baseBackoff k := by
  unfold waitExponential baseBackoff
  apply max_eq_right
  have h1 : (0 : Rat) < (1 / 2 : Rat) * 2 ^ (k - 1) := by positivity
  exact le_min h1.le (by norm_num)

/-- The base backoff schedule starts at one half. -/
theorem baseBackoff_one : baseBackoff 1 = 1 / 2 := by
  unfold baseBackoff
  norm_num

/-- The base backoff schedule is monotone in the attempt number. -/
theorem baseBackoff_mono (k : Nat) : baseBackoff k ≤ baseBackoff (k + 1) := by
  unfold baseBackoff
  apply min_le_min _ le_rfl
  have h2 : (1 : Rat) ≤ 2 := by norm_num
  have hle : k - 1 ≤ k + 1 - 1 := by omega
  exact mul_le_mul_of_nonneg_left (pow_le_pow_right₀ h2 hle) (by norm_num)

/-- The base backoff schedule doubles each retry, capped at eight. -/
theorem baseBackoff_doubling (k : Nat) (hk : 1 ≤ k) :
    baseBackoff (k + 1) = min (2 * baseBackoff k) 8 := by
  obtain ⟨j, rfl⟩ : ∃ j, k = j + 1 := ⟨k - 1, by omega⟩
  unfold baseBackoff
  have hsub1 : j + 1 + 1 - 1 = j + 1 := by omega
  have hsub2 : j + 1 - 1 = j := by omega
  rw [hsub1, hsub2]
  have hmul : (2 : Rat) * min ((1 / 2 : Rat) * 2 ^ j) 8 =
      min ((2 : Rat) * ((1 / 2 : Rat) * 2 ^ j)) (2 * 8) := by
    rw [mul_min_of_nonneg _ _ (by norm_num : (0 : Rat) ≤ 2)]
  rw [hmul]
  have hpow : (1 / 2 : Rat) * 2 ^ (j + 1) = (2 : Rat) * ((1 / 2 : Rat) * 2 ^ j) := by
    rw [pow_succ]; ring
  rw [hpow, min_assoc]
  norm_num

/-- Characterisation of the retry loop when every attempt fails with the
same retryable exception: it pauses once per unit of fuel, sleeping the
exponential wait plus jitter of the attempt number (with the hook's value
recorded alongside), and ends by re-raising that exception. -/
theorem retryLoop_all_retryable (cfg : Cfg) (env : Nat → AttemptOutcome)
    (nowAt jitter : Nat → Rat) (e : GetError) (he : isRetryableExc e = true)
    (h : ∀ k, _get_once cfg (env k) (nowAt k) = GetResult.exn e) :
    ∀ fuel n, retryLoop cfg env nowAt jitter n fuel =
      ((List.range fuel).map (fun j =>
        { slept := waitExponential (n + j) + jitter (n + j),
          nextActionSleep := hookNextAction e (waitExponential (n + j) + jitter (n + j)) }),
       GetResult.exn e) := by
  intro fuel
  induction fuel with
  | zero =>
    intro n
    rw [retryLoop, h n]
    simp [he]
  | succ f ih =>
    intro n
    rw [retryLoop, h n]
    simp only [he, if_true]
    rw [ih (n + 1)]
    rw [List.range_succ_eq_map]
    have harg : ∀ j, n + 1 + j = n + (j + 1) := fun j => by omega
    simp [Function.comp, harg]

/-- Statuses of the retryable set are never 2xx successes. -/
theorem retryable_not_success (s : Nat) (h : s ∈ RETRYABLE_STATUSES) :
    ¬ isSuccessStatus s := by
  have hs : s = 408 ∨ s = 425 ∨ s = 429 ∨ s = 500 ∨ s = 502 ∨ s = 503 ∨ s = 504 := by
    simpa [RETRYABLE_STATUSES] using h
  unfold isSuccessStatus
  rcases hs with h1 | h1 | h1 | h1 | h1 | h1 | h1 <;> subst h1 <;> omega

/-- Claim C1: on a concrete run whose first attempt fails with 429 and
Retry-After 2, the wait actually slept before the retry is the exponential
backoff plus jitter (five eighths), not the header's hint: the before_sleep
hook stores max(0, 2) into retry_state.next_action.sleep, but tenacity
sleeps the DoSleep value captured before the hook ran, so the hint does not
override the computed wait.  This holds for the blocking and non-blocking
flavors alike, which share the loop. -/
theorem c1_retry_after_hint_does_not_override_sleep :
    runGet cfgA envA nowZero jitterEighth =
      ([{ slept := 5 / 8, nextActionSleep := 2 }], GetResult.ok (PyObj.int 3))
    ∧ _parse_retry_after (some "2") 0 = some 2
    ∧ max (0 : Rat) 2 = 2
    ∧ waitExponential 1 + jitterEighth 1 = 5 / 8
    ∧ (5 / 8 : Rat) ≠ max (0 : Rat) 2 := by
  refine ⟨by with_unfolding_all rfl, by with_unfolding_all rfl, by norm_num, ?_, by norm_num⟩
  rw [waitExponential_eq_baseBackoff, baseBackoff_one]
  norm_num [jitterEighth]

/-- Claim C2: classification of one attempt.  A status of the retryable set
raises the internal signal with the status and the parsed Retry-After hint;
a 404 under the return-none-on-404 policy returns the None sentinel without
error; any other non-2xx status raises the fatal HTTPStatusError with the
status; a 2xx success returns the parsed body. -/
theorem c2_get_once_classification (cfg : Cfg) (r : Response) (now : Rat) :
    (r.status ∈ RETRYABLE_STATUSES →
      _get_once cfg (AttemptOutcome.resp r) now =
        GetResult.exn (GetError.retryableStatus r.status
          (_parse_retry_after r.retryAfterHeader now)))
    ∧ (r.status = 404 → cfg.return_none_on_404 = true →
        _get_once cfg (AttemptOutcome.resp r) now = GetResult.ok PyObj.none)
    ∧ (r.status ∉ RETRYABLE_STATUSES → ¬(r.status = 404 ∧ cfg.return_none_on_404 = true) →
        ¬ isSuccessStatus r.status →
        _get_once cfg (AttemptOutcome.resp r) now =
          GetResult.exn (GetError.httpStatusError r.status))
    ∧ (isSuccessStatus r.status →
        _get_once cfg (AttemptOutcome.resp r) now = GetResult.ok (_parse r)) := by
  refine ⟨?_, ?_, ?_, ?_⟩
  · intro h
    simp [_get_once, h]
  · intro h404 hpol
    have hmem : (404 : Nat) ∉ RETRYABLE_STATUSES := by decide
    simp [_get_once, hmem, h404, hpol]
  · intro h1 h2 h3
    simp [_get_once, h1, h2, h3]
  · intro h
    have h1 : r.status ∉ RETRYABLE_STATUSES := fun hm => retryable_not_success r.status hm h
    have h2 : ¬(r.status = 404 ∧ cfg.return_none_on_404 = true) := by
      rintro ⟨h4, _⟩
      rw [h4] at h
      exact absurd h (by decide)
    simp [_get_once, h1, h2, h]

/-- Witness for claim C2 at concrete inputs: the retryable branch on a 429
carrying Retry-After 2, and the success branch on a 200 with a JSON array
body. -/
theorem c2_get_once_classification_witness :
    _get_once cfgA (AttemptOutcome.resp resp429) 0 =
      GetResult.exn (GetError.retryableStatus 429 (some 2))
    ∧ _get_once cfgA (AttemptOutcome.resp respArray) 0 =
      GetResult.ok (PyObj.list [PyObj.int 1, PyObj.int 2]) := by
  constructor
  · exact ((c2_get_once_classification cfgA resp429 0).1 (by decide)).trans
      (by with_unfolding_all rfl)
  · exact ((c2_get_once_classification cfgA respArray 0).2.2.2 (by decide)).trans
      (by with_unfolding_all rfl)

/-- Claim C3: with three allowed attempts and a 500 on every attempt, the
client makes exactly max_retries attempts, then re-raises the last internal
retryable-status exception, whose message references status 500.  The
server handler converts a network error to a descriptive ToolError, but the
escaping retryable-status exception matches none of its except clauses and
propagates out of the handler instead of being reported descriptively. -/
theorem c3_exhaustion_surfaces_internal_exception :
    runGet cfgB envB nowZero jitterZero =
      ([{ slept := 1 / 2, nextActionSleep := 1 / 2 }, { slept := 1, nextActionSleep := 1 }],
       GetResult.exn (GetError.retryableStatus 500 Option.none))
    ∧ (runGet cfgB envB nowZero jitterZero).1.length + 1 = cfgB.max_retries
    ∧ retryableStatusMessage 500 = "Retryable HTTP status: 500"
    ∧ search_papers_handle (runGet cfgB envB nowZero jitterZero).2 =
        HandlerResult.uncaughtRetryable 500
    ∧ isToolErr (search_papers_handle (runGet cfgB envB nowZero jitterZero).2) = false
    ∧ search_papers_handle (GetResult.exn (GetError.networkError "boom")) =
        HandlerResult.toolErr ("Network error: " ++ "boom") := by
  refine ⟨by with_unfolding_all rfl, by with_unfolding_all rfl, by decide,
    by with_unfolding_all rfl, by with_unfolding_all rfl, rfl⟩

/-- Claim C4: when every attempt fails with a 429 carrying no Retry-After
header, each retry waits the exponential backoff of the attempt number plus
that attempt's jitter draw; the jitter draws lie in the closed interval
from zero to the jitter ceiling; the base schedule starts at one half,
doubles per attempt capped at eight, and is non-decreasing; and there are
exactly max_retries minus one retries before the retryable error
surfaces. -/
theorem c4_backoff_plan (cfg : Cfg) (env : Nat → AttemptOutcome) (bdy : Nat → String)
    (nowAt jitter : Nat → Rat)
    (henv : ∀ k, env k = AttemptOutcome.resp
      { status := 429, retryAfterHeader := Option.none, body := bdy k })
    (hj : ∀ k, 0 ≤ jitter k ∧ jitter k < cfg.jitter_max_seconds) :
    runGet cfg env nowAt jitter =
      ((List.range (cfg.max_retries - 1)).map (fun j =>
        { slept := baseBackoff (1 + j) + jitter (1 + j),
          nextActionSleep := baseBackoff (1 + j) + jitter (1 + j) }),
       GetResult.exn (GetError.retryableStatus 429 Option.none))
    ∧ (runGet cfg env nowAt jitter).1.length = cfg.max_retries - 1
    ∧ (∀ k, 0 ≤ jitter k ∧ jitter k ≤ cfg.jitter_max_seconds)
    ∧ baseBackoff 1 = 1 / 2
    ∧ (∀ k, 1 ≤ k → baseBackoff (k + 1) = min (2 * baseBackoff k) 8)
    ∧ (∀ k, baseBackoff k ≤ baseBackoff (k + 1)) := by
  have hget : ∀ k, _get_once cfg (env k) (nowAt k) =
      GetResult.exn (GetError.retryableStatus 429 Option.none) := by
    intro k
    rw [henv k]
    with_unfolding_all rfl
  have hmain := retryLoop_all_retryable cfg env nowAt jitter
    (GetError.retryableStatus 429 Option.none) rfl hget (cfg.max_retries - 1) 1
  have heq : runGet cfg env nowAt jitter =
      ((List.range (cfg.max_retries - 1)).map (fun j =>
        { slept := baseBackoff (1 + j) + jitter (1 + j),
          nextActionSleep := baseBackoff (1 + j) + jitter (1 + j) }),
       GetResult.exn (GetError.retryableStatus 429 Option.none)) := by
    rw [show runGet cfg env nowAt jitter =
      retryLoop cfg env nowAt jitter 1 (cfg.max_retries - 1) from rfl, hmain]
    simp only [waitExponential_eq_baseBackoff, hookNextAction]
  refine ⟨heq, ?_, ?_, baseBackoff_one, fun k hk => baseBackoff_doubling k hk, baseBackoff_mono⟩
  · rw [heq]
    simp
  · intro k
    exact ⟨(hj k).1, (hj k).2.le⟩

/-- Witness for claim C4 at a concrete run: three allowed attempts, all
getting a plain 429, with a jitter draw of one eighth per attempt. -/
theorem c4_backoff_plan_witness :
    (runGet cfgB envC nowZero jitterEighth).1.length = cfgB.max_retries - 1 :=
  (c4_backoff_plan cfgB envC (fun _ => "") nowZero jitterEighth (fun _ => rfl)
    (fun _ => ⟨by norm_num [jitterEighth], by norm_num [jitterEighth, cfgB]⟩)).2.1

/-- Counterexample to claim C5: the parser returns a negative numeric
Retry-After value as-is; it does not return max(v, 0), since on the header
value -5 it yields -5 while max(-5, 0) is 0. -/
theorem c5_negative_not_clamped_counterexample :
    _parse_retry_after (some "-5") 0 = some (-5)
    ∧ max (-5 : Rat) 0 = 0
    ∧ _parse_retry_after (some "-5") 0 ≠ some (max (-5 : Rat) 0) := by
  refine ⟨by with_unfolding_all rfl, by norm_num, ?_⟩
  rw [show max (-5 : Rat) 0 = 0 by norm_num, show _parse_retry_after (some "-5") 0 =
    some (-5) from by with_unfolding_all rfl]
  simp

/-- Claim C5 as amended: a Retry-After value the float builtin accepts is
returned by the parser exactly as parsed, with no clamping at parse time
(negative values included; the only flooring at zero happens later, at the
point of use). -/
theorem c5_parse_retry_after_numeric_unclamped (s : String) (v : Rat) (now : Rat)
    (h : pyFloat s = some v) : _parse_retry_after (some s) now = some v := by
  by_cases hs : s = ""
  · subst hs
    rw [show pyFloat "" = Option.none from rfl] at h
    exact Option.noConfusion h
  · simp [_parse_retry_after, hs, h]

/-- Witness for the amended claim C5 at the concrete header value 2. -/
theorem c5_parse_retry_after_numeric_unclamped_witness :
    _parse_retry_after (some "2") 17 = some 2 :=
  c5_parse_retry_after_numeric_unclamped "2" 2 17 (by with_unfolding_all rfl)

/-- Claim C6: a Retry-After value the float builtin rejects goes to
HTTP-date parsing; on success the parser returns the instant minus now
floored at zero under UTC normalisation (a timezone-less date read as UTC),
so the result is never negative and a past date yields zero; when both the
number and the date parse fail, and also for a missing or empty header,
there is no hint and no error. -/
theorem c6_parse_retry_after_date_paths (s : String) (now : Rat) :
    (∀ dt, pyFloat s = Option.none → parsedate_to_datetime s = some dt →
      _parse_retry_after (some s) now = some (max 0 ((utcEpochSeconds dt : Rat) - now)))
    ∧ (∀ dt, pyFloat s = Option.none → parsedate_to_datetime s = some dt →
        ∀ w, _parse_retry_after (some s) now = some w → 0 ≤ w)
    ∧ (pyFloat s = Option.none → parsedate_to_datetime s = Option.none →
        _parse_retry_after (some s) now = Option.none)
    ∧ _parse_retry_after Option.none now = Option.none
    ∧ _parse_retry_after (some "") now = Option.none := by
  have hdate : ∀ dt, pyFloat s = Option.none → parsedate_to_datetime s = some dt →
      _parse_retry_after (some s) now = some (max 0 ((utcEpochSeconds dt : Rat) - now)) := by
    intro dt h1 h2
    by_cases hs : s = ""
    · subst hs
      rw [show parsedate_to_datetime "" = Option.none from rfl] at h2
      exact Option.noConfusion h2
    · simp [_parse_retry_after, hs, h1, h2]
  refine ⟨hdate, ?_, ?_, rfl, rfl⟩
  · intro dt h1 h2 w hw
    rw [hdate dt h1 h2] at hw
    have : w = max 0 ((utcEpochSeconds dt : Rat) - now) := by
      simpa using hw.symm
    rw [this]
    exact le_max_left 0 _
  · intro h1 h2
    by_cases hs : s = ""
    · subst hs; rfl
    · simp [_parse_retry_after, hs, h1, h2]

/-- Witness for claim C6 at concrete inputs: an RFC 1123 date ten seconds
in the future of the supplied clock, and the malformed value soon. -/
theorem c6_parse_retry_after_date_paths_witness :
    _parse_retry_after (some "Wed, 21 Oct 2015 07:28:00 GMT") 1445412470 =
      some (max 0 ((utcEpochSeconds dtW : Rat) - 1445412470))
    ∧ _parse_retry_after (some "soon") 5 = Option.none :=
  ⟨(c6_parse_retry_after_date_paths "Wed, 21 Oct 2015 07:28:00 GMT" 1445412470).1 dtW
      (by with_unfolding_all rfl) (by with_unfolding_all rfl),
   (c6_parse_retry_after_date_paths "soon" 5).2.2.1
      (by with_unfolding_all rfl) (by with_unfolding_all rfl)⟩

/-- Claim C7: with no caller params the merge is the defaults with None
values dropped; a caller mapping is overlaid on the defaults with the
caller winning on key conflicts and None values then dropped, stated by the
lookup characterisations; a caller sequence of pairs, and any other shape,
pass through unmodified with no merging.  The key-distinctness hypotheses
hold for every dict a Python caller can supply. -/
theorem c7_merge_params_spec (cfg : Cfg) (m l : List (String × PyObj)) (k : String)
    (hd : (dictKeys cfg.default_params).Nodup) (hm : (dictKeys m).Nodup) :
    _merge_params cfg Option.none = Params.mapping (dictDropNone cfg.default_params)
    ∧ dictLookup (dictDropNone cfg.default_params) k =
        (dictLookup cfg.default_params k).bind
          (fun v => if v.isNone then Option.none else some v)
    ∧ _merge_params cfg (some (Params.mapping m)) =
        Params.mapping (dictDropNone (dictUnion cfg.default_params m))
    ∧ dictLookup (dictDropNone (dictUnion cfg.default_params m)) k =
        ((dictLookup m k).or (dictLookup cfg.default_params k)).bind
          (fun v => if v.isNone then Option.none else some v)
    ∧ _merge_params cfg (some (Params.pairs l)) = Params.pairs l
    ∧ _merge_params cfg (some Params.other) = Params.other := by
  refine ⟨rfl, dictLookup_dictDropNone _ _ hd, rfl, ?_, rfl, rfl⟩
  rw [dictLookup_dictDropNone _ _ (nodup_dictKeys_dictUnion _ _ hd),
    dictLookup_dictUnion _ _ _ hm]

/-- Witness for claim C7 at the spec's concrete example: caller page 2 over
defaults mailto, page 1 and a None-valued extra yields mailto and page 2
with the None default dropped; a pair sequence passes through. -/
theorem c7_merge_params_spec_witness :
    _merge_params cfgE (some (Params.mapping callerW)) =
      Params.mapping [("mailto", PyObj.str "x@y.com"), ("page", PyObj.int 2)]
    ∧ dictLookup (dictDropNone (dictUnion cfgE.default_params callerW)) "page" =
        ((dictLookup callerW "page").or (dictLookup cfgE.default_params "page")).bind
          (fun v => if v.isNone then Option.none else some v)
    ∧ _merge_params cfgE (some (Params.pairs callerW)) = Params.pairs callerW :=
  ⟨rfl,
   (c7_merge_params_spec cfgE callerW callerW "page" (by decide) (by decide)).2.2.2.1,
   (c7_merge_params_spec cfgE callerW callerW "page" (by decide) (by decide)).2.2.2.2.1⟩

/-- Claim C8: the URL safety wrapper always yields a truth value and never
raises — a ValidationError raised inside the library is caught and becomes
false, fail-closed — and it yields true only when the string splits as an
absolute URL whose scheme is http or https; on the four example inputs it
accepts the public https URL and rejects the loopback URL, the ftp scheme
and the non-URL. -/
theorem c8_ssrf_guard_contract :
    (∀ mode url sc rest, validate_url_with_ssrf_guard mode url = true →
      splitSchemeRest url.toList = some (sc, rest) →
      sc = "http".toList ∨ sc = "https".toList)
    ∧ (∀ mode url, validate_url_with_ssrf_guard mode url = true →
        splitSchemeRest url.toList ≠ Option.none)
    ∧ (∀ mode url, validators_url mode url = VResult.raisesValidationError →
        validate_url_with_ssrf_guard mode url = false)
    ∧ (∀ mode, validate_url_with_ssrf_guard mode "https://example.com/doc" = true)
    ∧ (∀ mode, validate_url_with_ssrf_guard mode "http://127.0.0.1/secret" = false)
    ∧ (∀ mode, validate_url_with_ssrf_guard mode "ftp://example.com" = false)
    ∧ (∀ mode, validate_url_with_ssrf_guard mode "not a url" = false) := by
  have hval : ∀ mode url, validate_url_with_ssrf_guard mode url = true →
      urlCheckPasses url = true := by
    intro mode url h
    by_cases hc : urlCheckPasses url = true
    · exact hc
    · exfalso
      cases mode <;> simp [validate_url_with_ssrf_guard, validators_url, hc] at h
  refine ⟨?_, ?_, ?_, ?_, ?_, ?_, ?_⟩
  · intro mode url sc rest h hsp
    have hc := hval mode url h
    unfold urlCheckPasses at hc
    rw [hsp] at hc
    simp only [Bool.and_eq_true, Bool.or_eq_true, decide_eq_true_eq] at hc
    exact hc.1.1.1
  · intro mode url h hnone
    have hc := hval mode url h
    unfold urlCheckPasses at hc
    rw [hnone] at hc
    exact Bool.noConfusion hc
  · intro mode url h
    by_cases hc : urlCheckPasses url = true
    · rw [show validators_url mode url = VResult.returnsTrue from by
        simp [validators_url, hc]] at h
      exact VResult.noConfusion h
    · cases mode <;> simp [validate_url_with_ssrf_guard, validators_url, hc]
  · intro mode; cases mode <;> decide
  · intro mode; cases mode <;> decide
  · intro mode; cases mode <;> decide
  · intro mode; cases mode <;> decide

/-- Witness for claim C8: in the library's raising mode on the loopback
URL, the raised ValidationError is caught and the wrapper yields false. -/
theorem c8_ssrf_guard_contract_witness :
    validate_url_with_ssrf_guard true "http://127.0.0.1/secret" = false :=
  c8_ssrf_guard_contract.2.2.1 true "http://127.0.0.1/secret" (by decide)

/-- Claim C9: a 204 response parses to the empty result whatever its body;
otherwise a body that decodes as JSON parses to the decoded value and any
other body parses to its raw text — a non-JSON body is never an error. -/
theorem c9_parse_body_leniency (r : Response) :
    (r.status = 204 → _parse r = PyObj.none)
    ∧ (r.status ≠ 204 → ∀ v, jsonDecode r.body = some v → _parse r = v)
    ∧ (r.status ≠ 204 → jsonDecode r.body = Option.none → _parse r = PyObj.str r.body) := by
  refine ⟨?_, ?_, ?_⟩
  · intro h
    simp [_parse, h]
  · intro h v hv
    simp [_parse, h, hv]
  · intro h hv
    simp [_parse, h, hv]

/-- Witness for claim C9: a 200 with a JSON array body parses to the array,
and a 204 with the same body parses to the empty result. -/
theorem c9_parse_body_leniency_witness :
    _parse respArray = PyObj.list [PyObj.int 1, PyObj.int 2]
    ∧ _parse resp204 = PyObj.none :=
  ⟨(c9_parse_body_leniency respArray).2.1 (by decide)
      (PyObj.list [PyObj.int 1, PyObj.int 2]) (by with_unfolding_all rfl),
   (c9_parse_body_leniency resp204).1 rfl⟩

/-- Claim C10: the not-found sentinel is the Python value None, and the
same None is returned for a 404 under the policy, for a 204 No Content and
for a success whose body is the JSON literal null, so a caller cannot tell
these apart; the server handler turns a None result into the descriptive
no-results ToolError. -/
theorem c10_none_sentinel_conflation (cfg : Cfg) (r : Response) (now : Rat) :
    (cfg.return_none_on_404 = true → r.status = 404 →
      _get_once cfg (AttemptOutcome.resp r) now = GetResult.ok PyObj.none)
    ∧ (r.status = 204 → _get_once cfg (AttemptOutcome.resp r) now = GetResult.ok PyObj.none)
    ∧ (isSuccessStatus r.status → jsonDecode r.body = some PyObj.none →
        _get_once cfg (AttemptOutcome.resp r) now = GetResult.ok PyObj.none)
    ∧ search_papers_handle (GetResult.ok PyObj.none) =
        HandlerResult.toolErr "No works found with the query." := by
  refine ⟨?_, ?_, ?_, rfl⟩
  · intro hpol h404
    have hmem : (404 : Nat) ∉ RETRYABLE_STATUSES := by decide
    simp [_get_once, hmem, h404, hpol]
  · intro h204
    have hmem : (204 : Nat) ∉ RETRYABLE_STATUSES := by decide
    have hsucc : isSuccessStatus 204 := by constructor <;> norm_num
    simp [_get_once, hmem, h204, hsucc, _parse]
  · intro hsucc hjson
    have hmem : r.status ∉ RETRYABLE_STATUSES := fun hmm =>
      retryable_not_success r.status hmm hsucc
    have h404 : ¬(r.status = 404 ∧ cfg.return_none_on_404 = true) := by
      rintro ⟨h4, _⟩
      rw [h4] at hsucc
      exact absurd hsucc (by decide)
    by_cases h204 : r.status = 204
    · have hm2 : (204 : Nat) ∉ RETRYABLE_STATUSES := by decide
      have hs2 : isSuccessStatus 204 := by constructor <;> norm_num
      simp [_get_once, hm2, h404, hs2, _parse, h204]
    · simp [_get_once, hmem, h404, hsucc, _parse, h204, hjson]

/-- Witness for claim C10: under the 404-to-None policy, a 404, a 204 and a
success with body null all yield the same ok None result. -/
theorem c10_none_sentinel_conflation_witness :
    _get_once cfgD (AttemptOutcome.resp resp404) 0 = GetResult.ok PyObj.none
    ∧ _get_once cfgD (AttemptOutcome.resp resp204) 0 = GetResult.ok PyObj.none
    ∧ _get_once cfgD (AttemptOutcome.resp respNull) 0 = GetResult.ok PyObj.none :=
  ⟨(c10_none_sentinel_conflation cfgD resp404 0).1 rfl rfl,
   (c10_none_sentinel_conflation cfgD resp204 0).2.1 rfl,
   (c10_none_sentinel_conflation cfgD respNull 0).2.2.1 (by decide)
      (by with_unfolding_all rfl)⟩
